import Mathlib

/-!
Shallow embedding of the PMM user-management stack:
the SQL layer (migration `20250620031655_warm_credit.sql`: the
`admin_users_with_roles` view, `get_user_permissions`, `can_manage_user`),
the `create-user` edge function (`supabase/functions/create-user/index.ts`),
the client library (`src/lib/userManagement.ts`) and the admin-users page
(`canManageUser`, delete-button gating, `handleDeleteUser`).
Ids are modelled as strings, timestamps as integers (seconds), and jsonb
permission objects as association lists of string keys to boolean flags
(lookup-extensional: key order is irrelevant to every property proved).
-/

namespace PMM

/-- A row of the `roles` table. -/
structure RoleRow where
  rid : String
  name : String
  display_name : String
  is_active : Bool
  permissions : List (String × Bool)
deriving DecidableEq

/-- A row of the `admin_users` directory table. -/
structure AdminUserRow where
  uid : String
  email : String
  full_name : String
  role_id : Option String
  invited_by : Option String
  created_at : Int
  last_login : Option Int
deriving DecidableEq

/-- An identity-provider (auth) record. -/
structure AuthUser where
  uid : String
  email : String
deriving DecidableEq

/-- The durable state: identity provider, directory, and roles table. -/
structure DB where
  authUsers : List AuthUser
  adminUsers : List AdminUserRow
  roles : List RoleRow
deriving DecidableEq

/-- `LEFT JOIN roles r ON au.role_id = r.id`: resolve an account's role row,
`none` when the reference is null or dangling. -/
def roleOfAccount (roles : List RoleRow) (au : AdminUserRow) : Option RoleRow :=
  au.role_id.bind (fun i => roles.find? (fun r => decide (r.rid = i)))

/-- `SELECT r.* FROM admin_users au JOIN roles r ON au.role_id = r.id
WHERE au.id = uid AND r.is_active = true`: the account's role row when it
resolves and is active, else `none` (the `SELECT INTO` leaves nulls). -/
def activeRole (db : DB) (uid : String) : Option RoleRow :=
  match db.adminUsers.find? (fun au => decide (au.uid = uid)) with
  | some au =>
    match roleOfAccount db.roles au with
    | some r => if r.is_active then some r else none
    | none => none
  | none => none

/-- The name returned by the active-role lookup (`current_user_role` /
`target_user_role` in `can_manage_user`, `user_role` in
`get_user_permissions`); `none` models SQL NULL. -/
def activeRoleName (db : DB) (uid : String) : Option String :=
  (activeRole db uid).map (fun r => r.name)

/-- `COALESCE(r.name, 'unknown')` in the `admin_users_with_roles` view
(note: the view's LEFT JOIN does not filter on `r.is_active`). -/
def view_role_name (roles : List RoleRow) (au : AdminUserRow) : String :=
  match roleOfAccount roles au with
  | some r => r.name
  | none => "unknown"

/-- `COALESCE(r.display_name, 'Unknown Role')` in the view. -/
def view_role_display_name (roles : List RoleRow) (au : AdminUserRow) : String :=
  match roleOfAccount roles au with
  | some r => r.display_name
  | none => "Unknown Role"

/-- `COALESCE(r.is_active, false)` in the view. -/
def view_role_is_active (roles : List RoleRow) (au : AdminUserRow) : Bool :=
  match roleOfAccount roles au with
  | some r => r.is_active
  | none => false

/-- One day in seconds (the SQL INTERVAL unit). -/
def oneDay : Int := 86400

/-- The CASE expression of the view computing `activity_status` from
`last_login` against NOW() (`nowT`). -/
def activity_status (nowT : Int) (last_login : Option Int) : String :=
  match last_login with
  | none => "Never logged in"
  | some t =>
    if t > nowT - oneDay then "Active"
    else if t > nowT - 7 * oneDay then "Recently active"
    else if t > nowT - 30 * oneDay then "Inactive"
    else "Long inactive"

/-- A row of the `admin_users_with_roles` view (the fields the claims use). -/
structure ViewRow where
  id : String
  email : String
  full_name : String
  role_id : Option String
  role_name : String
  role_display_name : String
  role_is_active : Bool
  activity_status : String
deriving DecidableEq

/-- The view row projected from one `admin_users` row. -/
def viewRowOf (roles : List RoleRow) (nowT : Int) (au : AdminUserRow) : ViewRow :=
  { id := au.uid
    email := au.email
    full_name := au.full_name
    role_id := au.role_id
    role_name := view_role_name roles au
    role_display_name := view_role_display_name roles au
    role_is_active := view_role_is_active roles au
    activity_status := activity_status nowT au.last_login }

/-- The `admin_users_with_roles` view: one projected row per directory row
(the `ORDER BY created_at DESC` of the source only permutes the rows and is
immaterial to every property proved here). -/
def admin_users_with_roles (db : DB) (nowT : Int) : List ViewRow :=
  db.adminUsers.map (viewRowOf db.roles nowT)

/-- jsonb key lookup. -/
def jsonbLookup (j : List (String × Bool)) (k : String) : Option Bool :=
  (j.find? (fun p => decide (p.1 = k))).map (fun p => p.2)

/-- jsonb `||`: right operand wins on common keys (lookup-extensional). -/
def jsonbConcat (a b : List (String × Bool)) : List (String × Bool) :=
  b ++ a.filter (fun p => (jsonbLookup b p.1).isNone)

/-- The stored permission set of the actor's active role
(`COALESCE(role_permissions, '{}')` after the active-role SELECT). -/
def stored_permissions (db : DB) (uid : String) : List (String × Bool) :=
  match activeRole db uid with
  | some r => r.permissions
  | none => []

/-- The computed flags `get_user_permissions` appends with jsonb `||`,
branching on `user_role` (NULL falls to the ELSE branch). -/
def computed_flags (ur : Option String) : List (String × Bool) :=
  if ur = some "super_admin" then
    [("can_manage_super_admins", true), ("can_manage_admins", true),
     ("can_manage_users", true), ("can_view_all_data", true),
     ("can_modify_system_settings", true)]
  else if ur = some "admin" then
    [("can_manage_super_admins", false), ("can_manage_admins", true),
     ("can_manage_users", true), ("can_view_all_data", true),
     ("can_modify_system_settings", false)]
  else
    [("can_manage_super_admins", false), ("can_manage_admins", false),
     ("can_manage_users", false), ("can_view_all_data", false),
     ("can_modify_system_settings", false)]

/-- `get_user_permissions(user_id)`: stored role permissions overlaid with
the computed flags. -/
def get_user_permissions (db : DB) (uid : String) : List (String × Bool) :=
  jsonbConcat (stored_permissions db uid) (computed_flags (activeRoleName db uid))

/-- SQL three-valued `x != y` as used in an IF: false when `x` is NULL. -/
def sqlNeq (x : Option String) (y : String) : Bool :=
  match x with
  | some v => decide (v ≠ y)
  | none => false

/-- The body of `can_manage_user` after the two role lookups:
super_admin manages anyone; admin manages targets whose active role is not
super_admin; anyone manages themself. -/
def can_manage_core (cur tgt : Option String) (isSelf : Bool) : Bool :=
  if cur = some "super_admin" then true
  else if cur = some "admin" ∧ sqlNeq tgt "super_admin" = true then true
  else if isSelf then true
  else false

/-- `can_manage_user(target_user_id)` for caller `actorId`. -/
def can_manage_user (db : DB) (actorId targetId : String) : Bool :=
  can_manage_core (activeRoleName db actorId) (activeRoleName db targetId)
    (decide (actorId = targetId))

/-- The admin-users page's `canManageUser`, over the caller's resolved
permission flags and the listed row's `role_name`. -/
def canManageUser (perms : List (String × Bool)) (targetRoleName : String) : Bool :=
  if jsonbLookup perms "can_manage_super_admins" = some true then true
  else if jsonbLookup perms "can_manage_admins" = some true ∧ targetRoleName ≠ "super_admin"
    then true
  else false

/-- The page's check wired to its data sources: flags from
`get_user_permissions` of the current user, role name from the listing row. -/
def clientCanManage (db : DB) (actorId : String) (target : AdminUserRow) : Bool :=
  canManageUser (get_user_permissions db actorId) (view_role_name db.roles target)

/-- The page renders the delete control only under
`canManageUser(user) && user.id !== currentUser?.id`. -/
def showDeleteButton (db : DB) (actorId : String) (target : ViewRow) : Bool :=
  canManageUser (get_user_permissions db actorId) target.role_name
    && decide (target.id ≠ actorId)

/-- `deleteUser` (`userManagement.ts` / `handleDeleteUser`): deletes the
identity record via `auth.admin.deleteUser`; the directory row goes with it,
per the cascade the source comment relies on. No permission or self check. -/
def deleteUser (db : DB) (targetId : String) : Except String Unit × DB :=
  (Except.ok (),
    { db with
      authUsers := db.authUsers.filter (fun u => decide (u.uid ≠ targetId))
      adminUsers := db.adminUsers.filter (fun au => decide (au.uid ≠ targetId)) })

/-- The language of the edge function's email test
`/^[^\s@]+@[^\s@]+\.[^\s@]+$/`: exactly one at-sign; a nonempty
whitespace-free local part; a whitespace-free domain containing a dot with at
least one character on each side (the middle class admits dots, so only a dot
that is neither first nor last is required). The local part is everything
before the first at-sign; the rest must carry no further at-sign. -/
def isValidEmail (s : String) : Bool :=
  let cs := s.data
  let l := cs.takeWhile (fun c => decide (c ≠ '@'))
  match cs.dropWhile (fun c => decide (c ≠ '@')) with
  | '@' :: d =>
    decide (0 < l.length)
      && l.all (fun c => !c.isWhitespace)
      && d.all (fun c => !c.isWhitespace && decide (c ≠ '@'))
      && (List.range d.length).any
        (fun i => decide (d.getD i ' ' = '.') && decide (1 ≤ i) && decide (i + 2 ≤ d.length))
  | _ => false

/-- The request body of the `create-user` edge function. -/
structure CreateUserRequest where
  email : String
  password : String
  full_name : String
  role_id : String
deriving DecidableEq

/-- The result payload distinguishes an error message from the created id. -/
def isErr (r : Except String String) : Bool :=
  match r with
  | Except.error _ => true
  | Except.ok _ => false

instance : DecidableEq (Except String String) := fun a b =>
  match a, b with
  | Except.error x, Except.error y =>
    if h : x = y then Decidable.isTrue (congrArg Except.error h)
    else Decidable.isFalse (fun hc => h (Except.error.inj hc))
  | Except.error _, Except.ok _ => Decidable.isFalse (fun hc => Except.noConfusion hc)
  | Except.ok _, Except.error _ => Decidable.isFalse (fun hc => Except.noConfusion hc)
  | Except.ok x, Except.ok y =>
    if h : x = y then Decidable.isTrue (congrArg Except.ok h)
    else Decidable.isFalse (fun hc => h (Except.ok.inj hc))

/-- The `create-user` edge function (`serve`) after token verification, for
caller `actorId`. `newId` is the id the identity provider assigns;
`authCreateFails` and `adminInsertFails` model failure of the two saga steps
(identity-provider create and directory insert). Checks run in source order:
caller is listed and has an admin role name; required fields; email format;
password length; role exists and is active; super-admin assignment
restriction; duplicate email against the identity provider; then create,
insert, and on insert failure the compensating delete of the new identity. -/
def createUser (db : DB) (actorId : String) (r : CreateUserRequest)
    (newId : String) (nowT : Int) (authCreateFails adminInsertFails : Bool) :
    Except String String × DB :=
  match db.adminUsers.find? (fun au => decide (au.uid = actorId)) with
  | none => (Except.error "User is not an admin", db)
  | some actorRow =>
    if ¬ (view_role_name db.roles actorRow = "super_admin" ∨
        view_role_name db.roles actorRow = "admin") then
      (Except.error "Insufficient permissions to create users", db)
    else if r.email = "" ∨ r.password = "" ∨ r.full_name = "" ∨ r.role_id = "" then
      (Except.error "Missing required fields: email, password, full_name, role_id", db)
    else if ¬ isValidEmail r.email then
      (Except.error "Invalid email format", db)
    else if r.password.length < 6 then
      (Except.error "Password must be at least 6 characters long", db)
    else
      match db.roles.find? (fun ro => decide (ro.rid = r.role_id) && ro.is_active) with
      | none => (Except.error "Invalid or inactive role", db)
      | some role =>
        if role.name = "super_admin" ∧ view_role_name db.roles actorRow ≠ "super_admin" then
          (Except.error "Only super admins can assign super admin role", db)
        else if db.authUsers.any (fun u => decide (u.email = r.email)) then
          (Except.error "Email already exists", db)
        else if authCreateFails then
          (Except.error "Failed to create user", db)
        else if adminInsertFails then
          (Except.error "Failed to create admin user record",
            { db with authUsers := (List.filter (fun u => decide (u.uid ≠ newId))
                (db.authUsers ++ [{ uid := newId, email := r.email }])) })
        else
          (Except.ok newId,
            { db with
              authUsers := db.authUsers ++ [{ uid := newId, email := r.email }]
              adminUsers := db.adminUsers ++
                [{ uid := newId, email := r.email, full_name := r.full_name,
                   role_id := some r.role_id, invited_by := some actorId,
                   created_at := nowT, last_login := none }] })

/-! Concrete fixtures used to exercise the theorems on closed inputs. -/

/-- Fixture: the seeded super_admin role. -/
def exRoleSuper : RoleRow :=
  ⟨"r_super", "super_admin", "Super Administrator", true, [("manage_users", true)]⟩

/-- Fixture: the seeded admin role, with a stored flag. -/
def exRoleAdmin : RoleRow := ⟨"r_admin", "admin", "Administrator", true, [("read", true)]⟩

/-- Fixture: the seeded basic user role. -/
def exRoleUser : RoleRow := ⟨"r_user", "user", "User", true, []⟩

/-- Fixture: a deactivated role. -/
def exRoleOld : RoleRow := ⟨"r_old", "editor", "Editor", false, []⟩

/-- Fixture: an admin account. -/
def exActor : AdminUserRow := ⟨"a1", "ann@example.com", "Ann", some "r_admin", none, 0, none⟩

/-- Fixture: an ordinary account with the basic role. -/
def exBob : AdminUserRow := ⟨"u1", "bob@example.com", "Bob", some "r_user", none, 0, none⟩

/-- Fixture: an account referencing the deactivated role. -/
def exCara : AdminUserRow := ⟨"u2", "cara@example.com", "Cara", some "r_old", none, 0, none⟩

/-- Fixture: an account with a dangling role reference. -/
def exDan : AdminUserRow := ⟨"u3", "dan@example.com", "Dan", some "r_gone", none, 0, none⟩

/-- Fixture database combining the rows above. -/
def exDb : DB :=
  ⟨[⟨"a1", "ann@example.com"⟩, ⟨"u1", "bob@example.com"⟩,
    ⟨"u2", "cara@example.com"⟩, ⟨"u3", "dan@example.com"⟩],
   [exActor, exBob, exCara, exDan],
   [exRoleSuper, exRoleAdmin, exRoleUser, exRoleOld]⟩

/-! Theorems. -/

/-- C1: `can_manage_user` over resolved roles returns true exactly when the
actor is super_admin, or the actor is admin and the target role is not
super_admin, or the check is a self check; moreover every role can manage
itself under the self flag, and admin cannot manage super_admin when not
self. -/
theorem c1_can_manage_spec (a t : String) (s : Bool) :
    (can_manage_core (some a) (some t) s = true ↔
      a = "super_admin" ∨ (a = "admin" ∧ t ≠ "super_admin") ∨ s = true) ∧
    can_manage_core (some a) (some a) true = true ∧
    can_manage_core (some "admin") (some "super_admin") false = false := by
  refine ⟨?_, ?_, by decide⟩
  · simp only [can_manage_core, sqlNeq]
    split_ifs with h1 h2 h3 <;> simp_all
  · simp only [can_manage_core, sqlNeq]
    split_ifs <;> simp_all

/-- C7: the derived activity status is the CASE cascade over the age of
`last_login` with thresholds of 1, 7 and 30 days, with the null case mapped
to never-logged-in; a login exactly two days old is "Recently active". -/
theorem c7_activity_status_spec (nowT t : Int) :
    activity_status nowT none = "Never logged in" ∧
    (nowT - t < oneDay → activity_status nowT (some t) = "Active") ∧
    (oneDay ≤ nowT - t → nowT - t < 7 * oneDay →
      activity_status nowT (some t) = "Recently active") ∧
    (7 * oneDay ≤ nowT - t → nowT - t < 30 * oneDay →
      activity_status nowT (some t) = "Inactive") ∧
    (30 * oneDay ≤ nowT - t → activity_status nowT (some t) = "Long inactive") ∧
    activity_status nowT (some (nowT - 2 * oneDay)) = "Recently active" := by
  refine ⟨rfl, ?_, ?_, ?_, ?_, ?_⟩
  · intro h
    simp only [oneDay] at h
    simp only [activity_status, oneDay]
    rw [if_pos (by omega)]
  · intro h1 h2
    simp only [oneDay] at h1 h2
    simp only [activity_status, oneDay]
    rw [if_neg (by omega), if_pos (by omega)]
  · intro h1 h2
    simp only [oneDay] at h1 h2
    simp only [activity_status, oneDay]
    rw [if_neg (by omega), if_neg (by omega), if_pos (by omega)]
  · intro h1
    simp only [oneDay] at h1
    simp only [activity_status, oneDay]
    rw [if_neg (by omega), if_neg (by omega), if_neg (by omega)]
  · simp only [activity_status, oneDay]
    rw [if_neg (by omega), if_pos (by omega)]

/-- Filtering with a predicate that holds on every hit leaves `find?`
unchanged. -/
theorem find?_filter_of_pred {α : Type} (l : List α) (pred q : α → Bool)
    (h : ∀ x, pred x = true → q x = true) :
    (l.filter q).find? pred = l.find? pred := by
  induction l with
  | nil => rfl
  | cons x xs ih =>
    by_cases hp : pred x = true
    · have hq := h x hp
      simp [List.filter_cons, hq, List.find?_cons, hp]
    · by_cases hq : q x = true <;>
        simp [List.filter_cons, hq, List.find?_cons, hp, ih]

/-- Lookup over jsonb `||`: the right operand wins when it has the key. -/
theorem jsonbLookup_concat (a b : List (String × Bool)) (k : String) :
    jsonbLookup (jsonbConcat a b) k =
      if (jsonbLookup b k).isSome then jsonbLookup b k else jsonbLookup a k := by
  have hmain : List.find? (fun p => decide (p.1 = k)) (jsonbConcat a b) =
      (List.find? (fun p => decide (p.1 = k)) b).or
        (List.find? (fun p => decide (p.1 = k)) a) := by
    unfold jsonbConcat
    rw [List.find?_append]
    cases hb : List.find? (fun p => decide (p.1 = k)) b with
    | some p => rfl
    | none =>
      rw [Option.none_or, Option.none_or]
      apply find?_filter_of_pred
      intro x hx
      have hx1 : x.1 = k := by simpa using hx
      simp [jsonbLookup, hx1, hb]
  unfold jsonbLookup
  rw [hmain]
  cases hb : List.find? (fun p => decide (p.1 = k)) b with
  | some p => simp [Option.or]
  | none => simp

/-- The computed flags always carry the super-admin management key, with
value exactly "actor role is super_admin". -/
theorem lookup_computed_super (ur : Option String) :
    jsonbLookup (computed_flags ur) "can_manage_super_admins" =
      some (decide (ur = some "super_admin")) := by
  unfold computed_flags
  split_ifs with h1 h2
  · simp [jsonbLookup, h1]
  · simp [jsonbLookup, h1, h2]
  · simp [jsonbLookup, h1, h2]

/-- The computed flags always carry the admin management key, with value
exactly "actor role is super_admin or admin". -/
theorem lookup_computed_admins (ur : Option String) :
    jsonbLookup (computed_flags ur) "can_manage_admins" =
      some (decide (ur = some "super_admin" ∨ ur = some "admin")) := by
  unfold computed_flags
  split_ifs with h1 h2
  · simp [jsonbLookup, h1]
  · simp [jsonbLookup, h1, h2]
  · simp [jsonbLookup, h1, h2]

/-- The computed flags always carry the user management key, with value
exactly "actor role is super_admin or admin". -/
theorem lookup_computed_users (ur : Option String) :
    jsonbLookup (computed_flags ur) "can_manage_users" =
      some (decide (ur = some "super_admin" ∨ ur = some "admin")) := by
  unfold computed_flags
  split_ifs with h1 h2
  · simp [jsonbLookup, h1]
  · simp [jsonbLookup, h1, h2]
  · simp [jsonbLookup, h1, h2]

/-- Keys held by the computed flags read through `get_user_permissions`
with the computed value. -/
theorem lookup_perms_computed (db : DB) (uid k : String)
    (h : (jsonbLookup (computed_flags (activeRoleName db uid)) k).isSome) :
    jsonbLookup (get_user_permissions db uid) k =
      jsonbLookup (computed_flags (activeRoleName db uid)) k := by
  unfold get_user_permissions
  rw [jsonbLookup_concat, if_pos h]

/-- C6: `get_user_permissions` is the stored role permission set overlaid
with the computed flags; a super_admin actor gets all three management flags
true, an admin actor gets the two lower flags true and the super-admin flag
false, every other actor (role inactive or missing falls here, fail closed)
gets all three false, and on any key carried by both parts the computed flag
is what the result reports. -/
theorem c6_get_user_permissions_spec (db : DB) (uid : String) :
    get_user_permissions db uid =
      jsonbConcat (stored_permissions db uid)
        (computed_flags (activeRoleName db uid)) ∧
    (activeRoleName db uid = some "super_admin" →
      jsonbLookup (get_user_permissions db uid) "can_manage_super_admins" = some true ∧
      jsonbLookup (get_user_permissions db uid) "can_manage_admins" = some true ∧
      jsonbLookup (get_user_permissions db uid) "can_manage_users" = some true) ∧
    (activeRoleName db uid = some "admin" →
      jsonbLookup (get_user_permissions db uid) "can_manage_super_admins" = some false ∧
      jsonbLookup (get_user_permissions db uid) "can_manage_admins" = some true ∧
      jsonbLookup (get_user_permissions db uid) "can_manage_users" = some true) ∧
    (activeRoleName db uid ≠ some "super_admin" →
      activeRoleName db uid ≠ some "admin" →
      jsonbLookup (get_user_permissions db uid) "can_manage_super_admins" = some false ∧
      jsonbLookup (get_user_permissions db uid) "can_manage_admins" = some false ∧
      jsonbLookup (get_user_permissions db uid) "can_manage_users" = some false) ∧
    (∀ k, (jsonbLookup (stored_permissions db uid) k).isSome →
      (jsonbLookup (computed_flags (activeRoleName db uid)) k).isSome →
      jsonbLookup (get_user_permissions db uid) k =
        jsonbLookup (computed_flags (activeRoleName db uid)) k) := by
  refine ⟨rfl, ?_, ?_, ?_, ?_⟩
  · intro h
    refine ⟨?_, ?_, ?_⟩ <;>
      rw [lookup_perms_computed] <;>
      simp [lookup_computed_super, lookup_computed_admins, lookup_computed_users, h]
  · intro h
    refine ⟨?_, ?_, ?_⟩ <;>
      rw [lookup_perms_computed] <;>
      simp [lookup_computed_super, lookup_computed_admins, lookup_computed_users, h]
  · intro h1 h2
    refine ⟨?_, ?_, ?_⟩ <;>
      rw [lookup_perms_computed] <;>
      simp [lookup_computed_super, lookup_computed_admins, lookup_computed_users, h1, h2]
  · intro k _ hc
    exact lookup_perms_computed db uid k hc

/-- C6 witness: the theorem applied to the fixture database for the admin
actor, an ordinary actor, and an unknown actor. -/
theorem c6_get_user_permissions_spec_witness :
    jsonbLookup (get_user_permissions exDb "a1") "can_manage_admins" = some true ∧
    jsonbLookup (get_user_permissions exDb "a1") "can_manage_super_admins" = some false ∧
    jsonbLookup (get_user_permissions exDb "u1") "can_manage_users" = some false ∧
    jsonbLookup (get_user_permissions exDb "zz") "can_manage_admins" = some false :=
  ⟨((c6_get_user_permissions_spec exDb "a1").2.2.1 (by decide)).2.1,
   ((c6_get_user_permissions_spec exDb "a1").2.2.1 (by decide)).1,
   ((c6_get_user_permissions_spec exDb "u1").2.2.2.1 (by decide) (by decide)).2.2,
   ((c6_get_user_permissions_spec exDb "zz").2.2.2.1 (by decide) (by decide)).2.1⟩

/-- C8 counterexample: an account whose role exists but is inactive is
listed with the role's stored name, not the sentinel "unknown"; only a
dangling reference yields the sentinel. -/
theorem c8_counterexample :
    (viewRowOf exDb.roles 0 exCara).role_name = "editor" ∧
    (viewRowOf exDb.roles 0 exCara).role_name ≠ "unknown" ∧
    (viewRowOf exDb.roles 0 exCara).role_is_active = false ∧
    viewRowOf exDb.roles 0 exCara ∈ admin_users_with_roles exDb 0 := by
  refine ⟨rfl, by decide, rfl, ?_⟩
  exact List.mem_map_of_mem _ (by decide)

/-- C8 amended: the listing never drops a row. A dangling role reference
degrades to role_name "unknown" and display name "Unknown Role"; an
inactive role keeps its stored name with role_is_active false; the listing
has one row per account, each row a function of its own account alone. -/
theorem c8_amended_spec (db : DB) (nowT : Int) (au : AdminUserRow) :
    (roleOfAccount db.roles au = none →
      (viewRowOf db.roles nowT au).role_name = "unknown" ∧
      (viewRowOf db.roles nowT au).role_display_name = "Unknown Role" ∧
      (viewRowOf db.roles nowT au).role_is_active = false) ∧
    (∀ r, roleOfAccount db.roles au = some r →
      (viewRowOf db.roles nowT au).role_name = r.name ∧
      (viewRowOf db.roles nowT au).role_is_active = r.is_active) ∧
    (admin_users_with_roles db nowT).length = db.adminUsers.length ∧
    (au ∈ db.adminUsers → viewRowOf db.roles nowT au ∈ admin_users_with_roles db nowT) := by
  refine ⟨?_, ?_, ?_, ?_⟩
  · intro h
    simp [viewRowOf, view_role_name, view_role_display_name, view_role_is_active, h]
  · intro r h
    simp [viewRowOf, view_role_name, view_role_is_active, h]
  · simp [admin_users_with_roles]
  · intro h
    exact List.mem_map_of_mem _ h

/-- C8 amended witness: the theorem applied to the fixture account whose
role reference is dangling. -/
theorem c8_amended_spec_witness :
    (viewRowOf exDb.roles 0 exDan).role_name = "unknown" ∧
    (viewRowOf exDb.roles 0 exDan).role_display_name = "Unknown Role" :=
  ⟨((c8_amended_spec exDb 0 exDan).1 (by decide)).1,
   ((c8_amended_spec exDb 0 exDan).1 (by decide)).2.1⟩

/-- C9 counterexample: the delete operation run by an actor on their own id
succeeds and removes both the identity record and the directory record,
rather than failing and leaving the stores unchanged. -/
theorem c9_counterexample :
    (deleteUser exDb "a1").1 = Except.ok () ∧
    (deleteUser exDb "a1").2.authUsers.find? (fun u => decide (u.uid = "a1")) = none ∧
    (deleteUser exDb "a1").2.adminUsers.find? (fun au => decide (au.uid = "a1")) = none ∧
    (deleteUser exDb "a1").2 ≠ exDb := by
  refine ⟨rfl, by decide, by decide, by decide⟩

/-- C9 amended: the delete operation itself performs no self or permission
check — it succeeds and removes the target's identity and directory records
even when the target is the actor; self-deletion is prevented only in the
admin page, which renders no delete control on the actor's own row. -/
theorem c9_amended_spec (db : DB) (a : String) (target : ViewRow) :
    ((deleteUser db a).1 = Except.ok () ∧
      (∀ u ∈ (deleteUser db a).2.authUsers, u.uid ≠ a) ∧
      (∀ au ∈ (deleteUser db a).2.adminUsers, au.uid ≠ a)) ∧
    (target.id = a → showDeleteButton db a target = false) := by
  refine ⟨⟨rfl, ?_, ?_⟩, ?_⟩
  · intro u hu
    exact of_decide_eq_true (List.mem_filter.mp hu).2
  · intro au hau
    exact of_decide_eq_true (List.mem_filter.mp hau).2
  · intro h
    unfold showDeleteButton
    simp [h]

/-- C9 amended witness: the admin page hides the delete control on the
actor's own row in the fixture listing. -/
theorem c9_amended_spec_witness :
    showDeleteButton exDb "a1" (viewRowOf exDb.roles 0 exActor) = false :=
  (c9_amended_spec exDb "a1" (viewRowOf exDb.roles 0 exActor)).2 rfl

/-- With a registered email, every run of the gateway stops with an error
before any mutation. -/
theorem createUser_dup_eq (db : DB) (actorId : String) (r : CreateUserRequest)
    (newId : String) (nowT : Int) (f1 f2 : Bool)
    (hdup : db.authUsers.any (fun u => decide (u.email = r.email)) = true) :
    ∃ e, createUser db actorId r newId nowT f1 f2 = (Except.error e, db) := by
  unfold createUser
  cases hfind : db.adminUsers.find? (fun au => decide (au.uid = actorId)) with
  | none => exact ⟨_, rfl⟩
  | some actorRow =>
    dsimp only
    split_ifs with h1 h2 h3 h4
    all_goals try exact ⟨_, rfl⟩
    all_goals
      (cases hrole : db.roles.find? (fun ro => decide (ro.rid = r.role_id) && ro.is_active) <;>
        dsimp only)
    all_goals try exact ⟨_, rfl⟩
    all_goals split_ifs with g1
    all_goals exact ⟨_, rfl⟩

/-- With a short password, every run of the gateway stops with an error
before any mutation. -/
theorem createUser_pw_eq (db : DB) (actorId : String) (r : CreateUserRequest)
    (newId : String) (nowT : Int) (f1 f2 : Bool)
    (hpw : r.password.length < 6) :
    ∃ e, createUser db actorId r newId nowT f1 f2 = (Except.error e, db) := by
  unfold createUser
  cases hfind : db.adminUsers.find? (fun au => decide (au.uid = actorId)) with
  | none => exact ⟨_, rfl⟩
  | some actorRow =>
    dsimp only
    split_ifs with h1 h2 h3
    all_goals exact ⟨_, rfl⟩

/-- C3 counterexample: a request whose email is already registered and
whose role id resolves to no active role is rejected with the invalid-role
error, not the duplicate-email error the claim requires. -/
theorem c3_counterexample :
    (createUser exDb "a1" ⟨"bob@example.com", "secret1", "Bob", "missing"⟩ "n1" 0
        false false).1 = Except.error "Invalid or inactive role" ∧
    exDb.authUsers.any (fun u => decide (u.email = "bob@example.com")) = true ∧
    ("Invalid or inactive role" : String) ≠ "Email already exists" := by
  refine ⟨rfl, rfl, by decide⟩

/-- Error priority of the gateway checks for an authorized caller with all
fields present and an acceptable password: email format, then role
existence and activity, then the super-admin assignment restriction, then
the duplicate email. -/
theorem createUser_error_order (db : DB) (actorId : String) (r : CreateUserRequest)
    (newId : String) (nowT : Int) (f1 f2 : Bool) (actorRow : AdminUserRow)
    (hfind : db.adminUsers.find? (fun au => decide (au.uid = actorId)) = some actorRow)
    (hperm : view_role_name db.roles actorRow = "super_admin" ∨
      view_role_name db.roles actorRow = "admin")
    (hfields : ¬ (r.email = "" ∨ r.password = "" ∨ r.full_name = "" ∨ r.role_id = ""))
    (hpw : ¬ r.password.length < 6) :
    (¬ isValidEmail r.email = true →
      (createUser db actorId r newId nowT f1 f2).1 = Except.error "Invalid email format") ∧
    (isValidEmail r.email = true →
      db.roles.find? (fun ro => decide (ro.rid = r.role_id) && ro.is_active) = none →
      (createUser db actorId r newId nowT f1 f2).1 = Except.error "Invalid or inactive role") ∧
    (∀ role, isValidEmail r.email = true →
      db.roles.find? (fun ro => decide (ro.rid = r.role_id) && ro.is_active) = some role →
      role.name = "super_admin" ∧ view_role_name db.roles actorRow ≠ "super_admin" →
      (createUser db actorId r newId nowT f1 f2).1 =
        Except.error "Only super admins can assign super admin role") ∧
    (∀ role, isValidEmail r.email = true →
      db.roles.find? (fun ro => decide (ro.rid = r.role_id) && ro.is_active) = some role →
      ¬ (role.name = "super_admin" ∧ view_role_name db.roles actorRow ≠ "super_admin") →
      db.authUsers.any (fun u => decide (u.email = r.email)) = true →
      (createUser db actorId r newId nowT f1 f2).1 = Except.error "Email already exists") := by
  refine ⟨?_, ?_, ?_, ?_⟩
  · intro hinv
    unfold createUser
    rw [hfind]
    dsimp only
    rw [if_neg (not_not_intro hperm), if_neg hfields, if_pos hinv]
  · intro hval hrole
    unfold createUser
    rw [hfind]
    dsimp only
    rw [if_neg (not_not_intro hperm), if_neg hfields, if_neg (not_not_intro hval),
      if_neg hpw, hrole]
  · intro role hval hrole hsup
    unfold createUser
    rw [hfind]
    dsimp only
    rw [if_neg (not_not_intro hperm), if_neg hfields, if_neg (not_not_intro hval),
      if_neg hpw, hrole]
    dsimp only
    rw [if_pos hsup]
  · intro role hval hrole hsup hdup
    unfold createUser
    rw [hfind]
    dsimp only
    rw [if_neg (not_not_intro hperm), if_neg hfields, if_neg (not_not_intro hval),
      if_neg hpw, hrole]
    dsimp only
    rw [if_neg hsup, if_pos hdup]

/-- C3 amended: for an authorized caller with all fields present and an
acceptable password, the gateway checks email format first, then role
existence and activity, then the super-admin assignment restriction, then
the duplicate email — the first failing check in this order determines the
error; in particular a duplicate email together with an invalid role yields
the invalid-role error. -/
theorem c3_amended_spec (db : DB) (actorId : String) (r : CreateUserRequest)
    (newId : String) (nowT : Int) (f1 f2 : Bool) (actorRow : AdminUserRow)
    (hfind : db.adminUsers.find? (fun au => decide (au.uid = actorId)) = some actorRow)
    (hperm : view_role_name db.roles actorRow = "super_admin" ∨
      view_role_name db.roles actorRow = "admin")
    (hfields : ¬ (r.email = "" ∨ r.password = "" ∨ r.full_name = "" ∨ r.role_id = ""))
    (hpw : ¬ r.password.length < 6) :
    (¬ isValidEmail r.email = true →
      (createUser db actorId r newId nowT f1 f2).1 = Except.error "Invalid email format") ∧
    (isValidEmail r.email = true →
      db.roles.find? (fun ro => decide (ro.rid = r.role_id) && ro.is_active) = none →
      (createUser db actorId r newId nowT f1 f2).1 = Except.error "Invalid or inactive role") ∧
    (∀ role, isValidEmail r.email = true →
      db.roles.find? (fun ro => decide (ro.rid = r.role_id) && ro.is_active) = some role →
      role.name = "super_admin" ∧ view_role_name db.roles actorRow ≠ "super_admin" →
      (createUser db actorId r newId nowT f1 f2).1 =
        Except.error "Only super admins can assign super admin role") ∧
    (∀ role, isValidEmail r.email = true →
      db.roles.find? (fun ro => decide (ro.rid = r.role_id) && ro.is_active) = some role →
      ¬ (role.name = "super_admin" ∧ view_role_name db.roles actorRow ≠ "super_admin") →
      db.authUsers.any (fun u => decide (u.email = r.email)) = true →
      (createUser db actorId r newId nowT f1 f2).1 = Except.error "Email already exists") :=
  createUser_error_order db actorId r newId nowT f1 f2 actorRow hfind hperm hfields hpw

/-- C3 amended witness: the theorem applied to the fixture database with a
duplicate email and, separately, with an invalid role. -/
theorem c3_amended_spec_witness :
    (createUser exDb "a1" ⟨"bob@example.com", "secret1", "Bob2", "r_user"⟩ "n1" 0
        false false).1 = Except.error "Email already exists" ∧
    (createUser exDb "a1" ⟨"new@example.com", "secret1", "New", "missing"⟩ "n1" 0
        false false).1 = Except.error "Invalid or inactive role" :=
  ⟨(c3_amended_spec exDb "a1" ⟨"bob@example.com", "secret1", "Bob2", "r_user"⟩ "n1" 0
      false false exActor rfl (Or.inr rfl) (by decide) (by decide)).2.2.2 exRoleUser
      rfl rfl (by decide) rfl,
   (c3_amended_spec exDb "a1" ⟨"new@example.com", "secret1", "New", "missing"⟩ "n1" 0
      false false exActor rfl (Or.inr rfl) (by decide) (by decide)).2.1 rfl rfl⟩

/-- C5: a creation request whose email is already registered fails, leaves
the whole store (identity provider, directory, roles) exactly as it was,
and — when the request passes the earlier authorization, field, format,
password and role checks — fails precisely with the duplicate-email
error. -/
theorem c5_duplicate_email_spec (db : DB) (actorId : String) (r : CreateUserRequest)
    (newId : String) (nowT : Int) (f1 f2 : Bool)
    (hdup : db.authUsers.any (fun u => decide (u.email = r.email)) = true) :
    isErr (createUser db actorId r newId nowT f1 f2).1 = true ∧
    (createUser db actorId r newId nowT f1 f2).2 = db ∧
    (∀ actorRow role,
      db.adminUsers.find? (fun au => decide (au.uid = actorId)) = some actorRow →
      (view_role_name db.roles actorRow = "super_admin" ∨
        view_role_name db.roles actorRow = "admin") →
      ¬ (r.email = "" ∨ r.password = "" ∨ r.full_name = "" ∨ r.role_id = "") →
      isValidEmail r.email = true → ¬ r.password.length < 6 →
      db.roles.find? (fun ro => decide (ro.rid = r.role_id) && ro.is_active) = some role →
      ¬ (role.name = "super_admin" ∧ view_role_name db.roles actorRow ≠ "super_admin") →
      (createUser db actorId r newId nowT f1 f2).1 = Except.error "Email already exists") := by
  obtain ⟨e, he⟩ := createUser_dup_eq db actorId r newId nowT f1 f2 hdup
  refine ⟨by rw [he]; rfl, by rw [he], ?_⟩
  intro actorRow role hfind hperm hfields hval hpw hrole hsup
  exact (createUser_error_order db actorId r newId nowT f1 f2 actorRow hfind hperm hfields
    hpw).2.2.2 role hval hrole hsup hdup

/-- C5 witness: the theorem applied to the fixture database with a request
reusing a registered email. -/
theorem c5_duplicate_email_spec_witness :
    isErr (createUser exDb "a1" ⟨"bob@example.com", "secret1", "Bob3", "r_user"⟩ "n1" 0
        false false).1 = true ∧
    (createUser exDb "a1" ⟨"bob@example.com", "secret1", "Bob3", "r_user"⟩ "n1" 0
        false false).2 = exDb :=
  ⟨(c5_duplicate_email_spec exDb "a1" ⟨"bob@example.com", "secret1", "Bob3", "r_user"⟩
      "n1" 0 false false rfl).1,
   (c5_duplicate_email_spec exDb "a1" ⟨"bob@example.com", "secret1", "Bob3", "r_user"⟩
      "n1" 0 false false rfl).2.1⟩

/-- C4: on any request that would have succeeded, if the directory-record
insert (saga step 2) fails after the identity-provider create (step 1)
succeeded, the gateway returns a failure, no identity record for the new id
remains (the compensating delete ran), and the directory is untouched. -/
theorem c4_compensation_spec (db : DB) (actorId : String) (r : CreateUserRequest)
    (newId : String) (nowT : Int)
    (hok : (createUser db actorId r newId nowT false false).1 = Except.ok newId) :
    isErr (createUser db actorId r newId nowT false true).1 = true ∧
    (∀ u ∈ (createUser db actorId r newId nowT false true).2.authUsers, u.uid ≠ newId) ∧
    (createUser db actorId r newId nowT false true).2.adminUsers = db.adminUsers := by
  unfold createUser at hok ⊢
  cases hfind : db.adminUsers.find? (fun au => decide (au.uid = actorId)) with
  | none =>
    rw [hfind] at hok
    exact absurd hok (by simp)
  | some actorRow =>
    rw [hfind] at hok
    dsimp only at hok ⊢
    by_cases h1 : view_role_name db.roles actorRow = "super_admin" ∨
      view_role_name db.roles actorRow = "admin"
    case neg =>
      rw [if_pos h1] at hok
      exact absurd hok (by simp)
    rw [if_neg (not_not_intro h1)] at hok ⊢
    by_cases h2 : r.email = "" ∨ r.password = "" ∨ r.full_name = "" ∨ r.role_id = ""
    case pos =>
      rw [if_pos h2] at hok
      exact absurd hok (by simp)
    rw [if_neg h2] at hok ⊢
    by_cases h3 : isValidEmail r.email = true
    case neg =>
      rw [if_pos h3] at hok
      exact absurd hok (by simp)
    rw [if_neg (not_not_intro h3)] at hok ⊢
    by_cases h4 : r.password.length < 6
    case pos =>
      rw [if_pos h4] at hok
      exact absurd hok (by simp)
    rw [if_neg h4] at hok ⊢
    cases hrole : db.roles.find? (fun ro => decide (ro.rid = r.role_id) && ro.is_active) with
    | none =>
      rw [hrole] at hok
      exact absurd hok (by simp)
    | some role =>
      rw [hrole] at hok
      dsimp only at hok ⊢
      by_cases h5 : role.name = "super_admin" ∧ view_role_name db.roles actorRow ≠ "super_admin"
      case pos =>
        rw [if_pos h5] at hok
        exact absurd hok (by simp)
      rw [if_neg h5] at hok ⊢
      by_cases h6 : db.authUsers.any (fun u => decide (u.email = r.email)) = true
      case pos =>
        rw [if_pos h6] at hok
        exact absurd hok (by simp)
      rw [if_neg h6] at hok ⊢
      refine ⟨by simp [isErr], ?_, by simp⟩
      intro u hu
      simp only [Bool.false_eq_true, if_false, if_true] at hu
      simp [List.mem_filter] at hu
      exact hu.2

/-- C4 witness: the theorem applied to a fixture request that succeeds when
nothing fails, with the directory insert made to fail. -/
theorem c4_compensation_spec_witness :
    isErr (createUser exDb "a1" ⟨"new@example.com", "secret1", "New", "r_user"⟩ "n1" 0
        false true).1 = true ∧
    (createUser exDb "a1" ⟨"new@example.com", "secret1", "New", "r_user"⟩ "n1" 0
        false true).2.adminUsers = exDb.adminUsers :=
  ⟨(c4_compensation_spec exDb "a1" ⟨"new@example.com", "secret1", "New", "r_user"⟩
      "n1" 0 (by decide)).1,
   (c4_compensation_spec exDb "a1" ⟨"new@example.com", "secret1", "New", "r_user"⟩
      "n1" 0 (by decide)).2.2⟩

/-- C10 counterexample: a request whose password is short but whose email
fails the format check is rejected with the email-format error, not the
password-length error the claim requires for every short-password
request. -/
theorem c10_counterexample :
    (createUser exDb "a1" ⟨"abc", "123", "X", "r_user"⟩ "n1" 0 false false).1 =
      Except.error "Invalid email format" ∧
    ("abc" : String).length < 6 ∧
    ("Invalid email format" : String) ≠ "Password must be at least 6 characters long" := by
  refine ⟨rfl, by decide, by decide⟩

/-- C10 amended: every short-password request fails and leaves the store
untouched; when the request additionally passes the authorization,
required-fields and email-format checks, the error is exactly the
password-length message. -/
theorem c10_short_password_spec (db : DB) (actorId : String) (r : CreateUserRequest)
    (newId : String) (nowT : Int) (f1 f2 : Bool)
    (hpw : r.password.length < 6) :
    isErr (createUser db actorId r newId nowT f1 f2).1 = true ∧
    (createUser db actorId r newId nowT f1 f2).2 = db ∧
    (∀ actorRow,
      db.adminUsers.find? (fun au => decide (au.uid = actorId)) = some actorRow →
      (view_role_name db.roles actorRow = "super_admin" ∨
        view_role_name db.roles actorRow = "admin") →
      ¬ (r.email = "" ∨ r.password = "" ∨ r.full_name = "" ∨ r.role_id = "") →
      isValidEmail r.email = true →
      (createUser db actorId r newId nowT f1 f2).1 =
        Except.error "Password must be at least 6 characters long") := by
  obtain ⟨e, he⟩ := createUser_pw_eq db actorId r newId nowT f1 f2 hpw
  refine ⟨by rw [he]; rfl, by rw [he], ?_⟩
  intro actorRow hfind hperm hfields hval
  unfold createUser
  rw [hfind]
  dsimp only
  rw [if_neg (not_not_intro hperm), if_neg hfields, if_neg (not_not_intro hval),
    if_pos hpw]

/-- C10 amended witness: the theorem applied to a fixture request with a
valid email and a three-character password. -/
theorem c10_short_password_spec_witness :
    isErr (createUser exDb "a1" ⟨"new2@example.com", "123", "X", "r_user"⟩ "n1" 0
        false false).1 = true ∧
    (createUser exDb "a1" ⟨"new2@example.com", "123", "X", "r_user"⟩ "n1" 0
        false false).1 = Except.error "Password must be at least 6 characters long" :=
  ⟨(c10_short_password_spec exDb "a1" ⟨"new2@example.com", "123", "X", "r_user"⟩
      "n1" 0 false false (by decide)).1,
   (c10_short_password_spec exDb "a1" ⟨"new2@example.com", "123", "X", "r_user"⟩
      "n1" 0 false false (by decide)).2.2 exActor rfl (Or.inr rfl) (by decide) rfl⟩

/-- The page's resolved super-admin flag for the caller is exactly "the
caller's active role is super_admin". -/
theorem client_flag_super (db : DB) (a : String) :
    jsonbLookup (get_user_permissions db a) "can_manage_super_admins" =
      some (decide (activeRoleName db a = some "super_admin")) := by
  rw [lookup_perms_computed db a "can_manage_super_admins"
    (by rw [lookup_computed_super]; rfl)]
  exact lookup_computed_super _

/-- The page's resolved admin flag for the caller is exactly "the caller's
active role is super_admin or admin". -/
theorem client_flag_admins (db : DB) (a : String) :
    jsonbLookup (get_user_permissions db a) "can_manage_admins" =
      some (decide (activeRoleName db a = some "super_admin" ∨
        activeRoleName db a = some "admin")) := by
  rw [lookup_perms_computed db a "can_manage_admins"
    (by rw [lookup_computed_admins]; rfl)]
  exact lookup_computed_admins _

/-- When the page's check grants: the caller's active role is super_admin,
or it is admin and the listed row's role name is not super_admin. -/
theorem clientCanManage_iff (db : DB) (a : String) (target : AdminUserRow) :
    clientCanManage db a target = true ↔
      (activeRoleName db a = some "super_admin" ∨
       (activeRoleName db a = some "admin" ∧
        view_role_name db.roles target ≠ "super_admin")) := by
  unfold clientCanManage canManageUser
  rw [client_flag_super, client_flag_admins]
  by_cases hs : activeRoleName db a = some "super_admin"
  · simp [hs]
  · by_cases hA : activeRoleName db a = some "admin"
    · by_cases ht : view_role_name db.roles target = "super_admin" <;> simp [hs, hA, ht]
    · simp [hs, hA]

/-- When the store's check grants: super_admin actor, or admin actor with a
target whose role resolves actively to a non-super_admin name, or self. -/
theorem can_manage_user_iff (db : DB) (a t : String) :
    can_manage_user db a t = true ↔
      (activeRoleName db a = some "super_admin" ∨
       (activeRoleName db a = some "admin" ∧ activeRoleName db t ≠ none ∧
        activeRoleName db t ≠ some "super_admin") ∨
       a = t) := by
  unfold can_manage_user can_manage_core sqlNeq
  by_cases hs : activeRoleName db a = some "super_admin"
  · simp [hs]
  · by_cases hA : activeRoleName db a = some "admin"
    · cases htg : activeRoleName db t with
      | none => by_cases hself : a = t <;> simp [hs, hA, htg, hself]
      | some n =>
        by_cases hn : n = "super_admin" <;> by_cases hself : a = t <;>
          simp [hs, hA, htg, hn, hself]
    · by_cases hself : a = t <;> simp [hs, hA, hself]

/-- A target whose role resolves actively is listed under that very role
name. -/
theorem view_name_of_active (db : DB) (tid : String) (trow : AdminUserRow)
    (hfind : db.adminUsers.find? (fun au => decide (au.uid = tid)) = some trow)
    (n : String) (hact : activeRoleName db tid = some n) :
    view_role_name db.roles trow = n := by
  unfold activeRoleName activeRole at hact
  rw [hfind] at hact
  dsimp only at hact
  cases hro : roleOfAccount db.roles trow with
  | none =>
    rw [hro] at hact
    simp at hact
  | some r =>
    rw [hro] at hact
    dsimp only at hact
    by_cases hia : r.is_active = true
    · rw [if_pos hia] at hact
      simp at hact
      unfold view_role_name
      rw [hro]
      exact hact
    · rw [if_neg hia] at hact
      simp at hact

/-- C2 counterexample: an ordinary account looking at its own row — the
store's check grants self-management while the page's check denies it, so
the two checks differ on a self pair. -/
theorem c2_counterexample :
    exDb.adminUsers.find? (fun au => decide (au.uid = "u1")) = some exBob ∧
    can_manage_user exDb "u1" "u1" = true ∧
    clientCanManage exDb "u1" exBob = false := by
  refine ⟨by decide, rfl, rfl⟩

/-- C2 amended: the page check and the store check agree on every
actor/target pair except exactly two families: a self pair whose actor's
role does not actively resolve to admin or super_admin (store grants
self-management, page denies), and an admin actor with a target whose role
reference is dangling or inactive and not listed as super_admin (page
grants, store denies). -/
theorem c2_amended_spec (db : DB) (a tid : String) (trow : AdminUserRow)
    (hfind : db.adminUsers.find? (fun au => decide (au.uid = tid)) = some trow) :
    clientCanManage db a trow ≠ can_manage_user db a tid ↔
      ((activeRoleName db a = some "admin" ∧ activeRoleName db tid = none ∧
        view_role_name db.roles trow ≠ "super_admin") ∨
       (a = tid ∧ activeRoleName db a ≠ some "admin" ∧
        activeRoleName db a ≠ some "super_admin")) := by
  have hb : (clientCanManage db a trow ≠ can_manage_user db a tid) ↔
      ((clientCanManage db a trow = true) ↔ ¬ (can_manage_user db a tid = true)) := by
    cases hcl : clientCanManage db a trow <;> cases hst : can_manage_user db a tid <;> simp
  rw [hb, clientCanManage_iff, can_manage_user_iff]
  by_cases hs : activeRoleName db a = some "super_admin"
  · simp [hs]
  · by_cases hA : activeRoleName db a = some "admin"
    · cases htg : activeRoleName db tid with
      | some n =>
        have hvn : view_role_name db.roles trow = n :=
          view_name_of_active db tid trow hfind n htg
        by_cases hn : n = "super_admin"
        · subst hn
          have hat : a ≠ tid := by
            intro h
            rw [h] at hA
            rw [hA] at htg
            simp at htg
          simp [hs, hA, htg, hvn, hat]
        · simp [hs, hA, htg, hvn, hn]
      | none =>
        have hat : a ≠ tid := by
          intro h
          rw [h] at hA
          rw [hA] at htg
          simp at htg
        by_cases hv : view_role_name db.roles trow = "super_admin" <;>
          simp [hs, hA, htg, hv, hat]
    · by_cases hself : a = tid
      · subst hself
        simp [hs, hA]
      · simp [hs, hA, hself]

/-- C2 amended witness: the theorem applied to the fixture self pair of an
ordinary account, exhibiting the divergence. -/
theorem c2_amended_spec_witness :
    clientCanManage exDb "u1" exBob ≠ can_manage_user exDb "u1" "u1" :=
  (c2_amended_spec exDb "u1" "u1" exBob (by decide)).mpr
    (Or.inr ⟨rfl, by decide, by decide⟩)

/-- C7 witness: the theorem applied at now = 0 with a two-day-old and a
fresh login. -/
theorem c7_activity_status_spec_witness :
    activity_status 0 (some (-(2 * 86400))) = "Recently active" ∧
    activity_status 0 (some 0) = "Active" :=
  ⟨(c7_activity_status_spec 0 (-(2 * 86400))).2.2.1 (by decide) (by decide),
   (c7_activity_status_spec 0 0).2.1 (by decide)⟩

end PMM
